import Mathlib

/-!
Verification development for the NAMASTE-FHIR terminology service.

The definitions below are a shallow embedding of the repository's Python
source (src/main.py, src/namaste_cli.py, src/icd11_client.py):

* search engine: `get_exact_matches`, `get_fuzzy_matches`,
  `fuzzy_search_terms` (src/main.py lines 193-266);
* mapping resolver: `_get_translation_matches`, `translate_code`
  (src/main.py lines 454-495) and the `icd_mappings` table (lines 63-70);
* ICD-11 cache validity: `_is_cache_valid`, `_load_from_cache`
  (src/icd11_client.py lines 48-87);
* enrichment: `get_enhanced_namaste_mappings` (src/icd11_client.py lines
  221-270) and `get_icd_mappings_for_code` (src/namaste_cli.py lines 66-93);
* FHIR generation: `generate_fhir_codesystem`, `generate_fhir_conceptmap`
  (src/namaste_cli.py lines 125-235).

The fuzzywuzzy scorer (`fuzz.partial_ratio` composed with the default
processor) is an external library, so it is modelled as an abstract
parameter `scorer : String → String → Nat`; `process.extract` is modelled
faithfully as a stable descending sort by score followed by `take limit`
(Python implements it with `heapq.nlargest`, documented as equivalent to
a stable reverse sort truncated to the first `limit` items).
-/

/-- Substring occurrence: `strStarts pat l` holds when `pat` is a prefix
of `l`, character by character.  Used to model Python's `pat in s`. -/
def strStarts : List Char → List Char → Bool
  | [], _ => true
  | _ :: _, [] => false
  | a :: as, b :: bs => a == b && strStarts as bs

/-- Auxiliary scan for substring occurrence at any position. -/
def strHasAux (pat : List Char) : List Char → Bool
  | [] => pat.isEmpty
  | h :: t => strStarts pat (h :: t) || strHasAux pat t

/-- Python's `pat in hay` on strings (`str.__contains__`), which is what
`pandas.Series.str.contains(pat, regex=False)` evaluates per cell.
The empty pattern occurs in every string, as in Python. -/
def strHas (hay pat : String) : Bool :=
  strHasAux pat.data hay.data

/-- Python's `s.lower()`, written over the character list so it reduces
by computation (ASCII-equivalent to `String.toLower`). -/
def lowerStr (s : String) : String :=
  String.mk (s.data.map Char.toLower)

/-- Python's `s.strip()`: drop leading and trailing whitespace, written
over the character list so it reduces by computation. -/
def trimStr (s : String) : String :=
  String.mk (((s.data.dropWhile Char.isWhitespace).reverse.dropWhile
    Char.isWhitespace).reverse)

/-- One row of the in-memory terminology table `df_namaste`.  The
`searchableText` field models the derived `searchable_text` DataFrame
column: `none` when the column has not been created yet (right after
ingest), `some v` once `fuzzy_search_terms` has assigned it. -/
structure Row where
  code : String
  disease : String
  shortDefinition : String
  icd11Tm2Code : String
  icd11BiomedCode : String
  searchableText : Option String := none
deriving Repr, DecidableEq

/-- The value `fuzzy_search_terms` assigns to the `searchable_text`
column: lowercased `Disease + " " + Short_Definition + " " + Code`. -/
def derivedText (r : Row) : String :=
  lowerStr (r.disease ++ " " ++ r.shortDefinition ++ " " ++ r.code)

/-- Writing the derived column on one row. -/
def setSearchable (r : Row) : Row :=
  { r with searchableText := some (derivedText r) }

/-- Forgetting the derived column (used to compare the ingested columns
of two table states). -/
def stripDerived (r : Row) : Row :=
  { r with searchableText := none }

/-- Output record of the search engine (one element of the list built by
`get_exact_matches` / `get_fuzzy_matches` in src/main.py). -/
structure SearchResult where
  namasteCode : String
  displayName : String
  definition : String
  tm2Mapping : String
  biomedicineMapping : String
  confidenceScore : Nat
  matchType : String
deriving Repr, DecidableEq

/-- The dict built for an exact match (confidence 100, type "exact"). -/
def exactResult (r : Row) : SearchResult :=
  ⟨r.code, r.disease, r.shortDefinition, r.icd11Tm2Code, r.icd11BiomedCode, 100, "exact"⟩

/-- The dict built for a fuzzy match (given score, type "fuzzy"). -/
def fuzzyResult (score : Nat) (r : Row) : SearchResult :=
  ⟨r.code, r.disease, r.shortDefinition, r.icd11Tm2Code, r.icd11BiomedCode, score, "fuzzy"⟩

/-- The row filter of `get_exact_matches` (src/main.py lines 195-199):
the query occurs in the lowercased Disease, Short_Definition or Code. -/
def exactRows (rows : List Row) (q : String) : List Row :=
  rows.filter fun r =>
    strHas (lowerStr r.disease) q || strHas (lowerStr r.shortDefinition) q ||
      strHas (lowerStr r.code) q

/-- `get_exact_matches` (src/main.py lines 193-210). -/
def getExactMatches (rows : List Row) (q : String) : List SearchResult :=
  (exactRows rows q).map exactResult

/-- Order-preserving deduplication keeping the first occurrence, with an
accumulator of already-seen values; models `pandas.Series.unique`. -/
def dedupFirstAux (seen : List String) : List String → List String
  | [] => []
  | x :: xs =>
    if x ∈ seen then dedupFirstAux seen xs
    else x :: dedupFirstAux (x :: seen) xs

/-- `pandas.Series.unique`: distinct values in first-seen order. -/
def dedupFirst (l : List String) : List String :=
  dedupFirstAux [] l

/-- Insert into a descending-sorted list, after all entries of equal or
greater score (so that processing left to right is a stable sort). -/
def insDesc (p : String × Nat) : List (String × Nat) → List (String × Nat)
  | [] => [p]
  | q :: qs => if p.2 ≤ q.2 then q :: insDesc p qs else p :: q :: qs

/-- Left-to-right stable insertion sort by descending score. -/
def sortDescAux (sorted : List (String × Nat)) : List (String × Nat) → List (String × Nat)
  | [] => sorted
  | x :: xs => sortDescAux (insDesc x sorted) xs

/-- Stable descending sort by score: the order `heapq.nlargest` (and so
`fuzzywuzzy.process.extract`) returns candidates in. -/
def sortDesc (l : List (String × Nat)) : List (String × Nat) :=
  sortDescAux [] l

/-- `fuzzywuzzy.process.extract(query, choices, limit, scorer)`: score
every choice, sort descending (stable), keep the first `limit`. -/
def extractTop (scorer : String → String → Nat) (q : String)
    (texts : List String) (limit : Nat) : List (String × Nat) :=
  (sortDesc (texts.map fun t => (t, scorer q t))).take limit

/-- `get_fuzzy_matches` (src/main.py lines 212-231): extract the top
`limit` distinct searchable texts by score, keep those with
`score ≥ threshold`, and expand each retained text back to every row
carrying it. -/
def getFuzzyMatches (scorer : String → String → Nat) (rows : List Row)
    (q : String) (limit threshold : Nat) : List SearchResult :=
  let texts := dedupFirst (rows.map fun r => r.searchableText.getD "")
  ((extractTop scorer q texts limit).filter fun p => threshold ≤ p.2).flatMap
    fun p =>
      (rows.filter fun r => r.searchableText.getD "" == p.1).map (fuzzyResult p.2)

/-- The duplicate-removal loop of `fuzzy_search_terms` (src/main.py
lines 259-264): keep a result only if its `namaste_code` is unseen. -/
def dedupeByCode (seen : List String) : List SearchResult → List SearchResult
  | [] => []
  | r :: rs =>
    if r.namasteCode ∈ seen then dedupeByCode seen rs
    else r :: dedupeByCode (r.namasteCode :: seen) rs

/-- `fuzzy_search_terms` (src/main.py lines 233-266).  Returns the result
list together with the table state after the call, because the Python
function assigns the `searchable_text` column on the shared global
DataFrame before searching. -/
def fuzzySearchTerms (scorer : String → String → Nat) (table : List Row)
    (query : String) (limit threshold : Nat) : List SearchResult × List Row :=
  if table = [] then ([], table)
  else
    let q := trimStr (lowerStr query)
    let rows := table.map setSearchable
    let exact := getExactMatches rows q
    if limit ≤ exact.length then (exact.take limit, rows)
    else
      let fuzzy := getFuzzyMatches scorer rows q (limit - exact.length) threshold
      ((dedupeByCode [] (exact ++ fuzzy)).take limit, rows)

/-- Modelled from the spec: the fuzzy phase of section 4.1 step 4 with an
explicit candidate-width parameter — "take the top `width` candidates by
score, then keep only those with `score ≥ threshold`; for each retained
searchable_text, expand back to its owning record(s)". -/
def specFuzzyPhase (scorer : String → String → Nat) (rows : List Row)
    (q : String) (width threshold : Nat) : List SearchResult :=
  let texts := dedupFirst (rows.map fun r => r.searchableText.getD "")
  ((extractTop scorer q texts width).filter fun p => threshold ≤ p.2).flatMap
    fun p =>
      (rows.filter fun r => r.searchableText.getD "" == p.1).map (fuzzyResult p.2)

/-- Modelled from the spec: the full search algorithm of section 4.1,
parametric in the function `widthFn` that turns the remaining limit into
the fuzzy-phase candidate width (the spec claims `widthFn = 2 * ·`). -/
def searchSpecW (scorer : String → String → Nat) (widthFn : Nat → Nat)
    (table : List Row) (query : String) (limit threshold : Nat) : List SearchResult :=
  if table = [] then []
  else
    let q := trimStr (lowerStr query)
    let rows := table.map setSearchable
    let exact := getExactMatches rows q
    if limit ≤ exact.length then exact.take limit
    else
      let fuzzy := specFuzzyPhase scorer rows q (widthFn (limit - exact.length)) threshold
      (dedupeByCode [] (exact ++ fuzzy)).take limit

/-- A degenerate scorer used for concrete instances whose behaviour must
not depend on fuzzy scoring. -/
def zeroScorer : String → String → Nat := fun _ _ => 0

/-- The mock `icd_mappings` dict of src/main.py lines 63-70:
(code, tm2, biomed, name). -/
def icdMappings : List (String × String × String × String) :=
  [("AAE-16", "SP00", "FA01", "Sandhigatvata"),
   ("AA", "SP10", "FA20", "Vatavyadhi"),
   ("EE-3", "SL01", "ME83", "Arsha"),
   ("EF-2.4.4", "SJ00", "5A11", "Madhumeha/Kshaudrameha"),
   ("EA-3", "SB00", "CA22", "Kasa")]

/-- `icd_mappings.get(x, {"tm2": "UNKNOWN"})["tm2"]` (src/main.py 138). -/
def icdTm2For (code : String) : String :=
  ((icdMappings.find? fun p => p.1 == code).map fun p => p.2.1).getD "UNKNOWN"

/-- `icd_mappings.get(x, {"biomed": "UNKNOWN"})["biomed"]` (src/main.py 139). -/
def icdBiomedFor (code : String) : String :=
  ((icdMappings.find? fun p => p.1 == code).map fun p => p.2.2.1).getD "UNKNOWN"

/-- One ingested row as produced by `/ingest-namaste` (src/main.py
lines 136-139): the two ICD-11 columns are filled from `icd_mappings`
and the `searchable_text` column does not exist yet. -/
def ingestRow (code disease shortDef : String) : Row :=
  { code := code, disease := disease, shortDefinition := shortDef,
    icd11Tm2Code := icdTm2For code, icd11BiomedCode := icdBiomedFor code }

/-- A translation match as built by `_get_translation_matches`
(src/main.py lines 454-465): equivalence string plus the concept dict. -/
structure TransMatch where
  equivalence : String
  conceptCode : String
  conceptDisplay : String
deriving Repr, DecidableEq

/-- The `TranslationResponse` model of src/main.py lines 168-171. -/
structure TransResponse where
  result : Bool
  message : String
  matchList : List TransMatch
deriving Repr, DecidableEq

/-- A single-quote character, built numerically so the source's message
strings can be reproduced verbatim. -/
def squote : String := String.singleton (Char.ofNat 39)

/-- `_get_translation_matches` (src/main.py lines 454-465): rows whose
source column equals the code, emitting a match whenever the target
column is not the "UNKNOWN" sentinel (the columns involved are always
populated strings, so the `pd.notna` guard is always true here). -/
def getTranslationMatches (rows : List Row) (sourceCode : String)
    (srcCol tgtCol dispCol : Row → String) : List TransMatch :=
  ((rows.filter fun r => srcCol r == sourceCode).filter
      fun r => tgtCol r ≠ "UNKNOWN").map
    fun r => ⟨"equivalent", tgtCol r, dispCol r⟩

/-- The unsupported-direction message of src/main.py line 490. -/
def unsupportedMsg : String :=
  "Unsupported translation direction. Use NAMASTE -> TM2 or TM2 -> NAMASTE."

/-- The no-translation-found message of src/main.py line 493. -/
def notFoundMsg (code sys tgt : String) : String :=
  "No translation found for code " ++ squote ++ code ++ squote ++ " from " ++
    sys ++ " to " ++ tgt ++ "."

/-- The tail of `translate_code` (src/main.py lines 492-495): empty
matches give a failure response, otherwise success. -/
def translationResponseFor (code sys tgt : String) (ms : List TransMatch) : TransResponse :=
  if ms = [] then ⟨false, notFoundMsg code sys tgt, []⟩
  else ⟨true, "Translation successful", ms⟩

/-- `translate_code` (src/main.py lines 467-495).  `Except.error` models
the HTTP 503 raised when no data has been ingested. -/
def translateCode (table : List Row) (code sys tgt : String) :
    Except String TransResponse :=
  if table = [] then
    .error "Terminology data not ingested yet. Please upload a CSV file."
  else if sys = "NAMASTE" ∧ tgt = "TM2" then
    .ok (translationResponseFor code sys tgt
      (getTranslationMatches table code (fun r => r.code)
        (fun r => r.icd11Tm2Code) (fun r => r.disease)))
  else if sys = "TM2" ∧ tgt = "NAMASTE" then
    .ok (translationResponseFor code sys tgt
      (getTranslationMatches table code (fun r => r.icd11Tm2Code)
        (fun r => r.code) (fun r => r.disease)))
  else
    .ok ⟨false, unsupportedMsg, []⟩

/-- State of one cache file, distinguishing every shape
`_is_cache_valid` (src/icd11_client.py lines 48-62) treats differently:

* `absent` — the file does not exist (`cache_path.exists()` is false);
* `notJson` — the content is not JSON, so `json.load` raises
  `json.JSONDecodeError`, which the `except` clause catches;
* `nonDictJson` — valid JSON whose top level is not a dict (a list,
  string, number or null), so `cache_data.get` raises `AttributeError`,
  which the `except` clause does NOT catch;
* `nonStringTimestamp` — a dict whose `cached_at` value is present but
  not a string, so `datetime.fromisoformat` raises `TypeError`, which
  the `except` clause does NOT catch;
* `unparsableTimestamp` — a dict whose `cached_at` key is missing
  (`.get` yields `""`) or holds an unparsable string, so
  `datetime.fromisoformat` raises `ValueError`, which is caught;
* `stored` — a dict with a parsable `cached_at` timestamp and a
  payload.

Time is abstract (integer units); the code measures `cache_duration`
in hours of the same clock. -/
inductive CacheEntry (α : Type) where
  | absent
  | notJson
  | nonDictJson
  | nonStringTimestamp
  | unparsableTimestamp
  | stored (cachedAt : Int) (data : α)
deriving Repr, DecidableEq

/-- `_is_cache_valid` (src/icd11_client.py lines 48-62): its `except`
clause catches only `(json.JSONDecodeError, ValueError, KeyError)`, so
a missing file, non-JSON content and an unparsable timestamp string
yield False, but a valid-JSON non-dict payload escapes with
`AttributeError` and a non-string timestamp with `TypeError` —
modelled as `Except.error`, uncaught exceptions propagating to the
caller. -/
def isCacheValid {α : Type} (now duration : Int) :
    CacheEntry α → Except String Bool
  | .absent => .ok false
  | .notJson => .ok false
  | .nonDictJson => .error "AttributeError"
  | .nonStringTimestamp => .error "TypeError"
  | .unparsableTimestamp => .ok false
  | .stored c _ => .ok (decide (now < c + duration))

/-- `_load_from_cache` (src/icd11_client.py lines 75-87): the
`_is_cache_valid` call sits outside the try block, so an exception it
raises propagates; an invalid entry yields `none`, and a valid entry
yields its stored payload. -/
def loadFromCache {α : Type} (now duration : Int) (e : CacheEntry α) :
    Except String (Option α) :=
  match isCacheValid now duration e with
  | .error msg => .error msg
  | .ok valid =>
    if valid then
      match e with
      | .stored _ d => .ok (some d)
      | _ => .ok none
    else .ok none

/-- One entry of the WHO search response (`destinationEntities[]`),
keeping the fields `get_enhanced_namaste_mappings` reads: `id` and
`title.@value` (already flattened; an absent title is `""`). -/
structure SearchHit where
  id : String
  title : String
deriving Repr, DecidableEq

/-- Splitting a character list on the slash character; Python's
`s.split('/')` semantics (an empty string gives one empty field). -/
def splitSlashAux : List Char → List (List Char)
  | [] => [[]]
  | c :: cs =>
    if c == Char.ofNat 47 then [] :: splitSlashAux cs
    else
      match splitSlashAux cs with
      | [] => [[c]]
      | h :: t => (c :: h) :: t

/-- Python's `s.split('/')[-1]`, written so it reduces by computation. -/
def lastSegment (s : String) : String :=
  String.mk (((splitSlashAux s.data).getLast?).getD [])

/-- Value of `enhanced_mappings[code]` built in
`get_enhanced_namaste_mappings` (src/icd11_client.py lines 236-265). -/
structure EnhancedMapping where
  name : String
  tm2Codes : List (String × String)
  biomedCodes : List (String × String)
deriving Repr, DecidableEq

/-- The curated fallback search-term table hardcoded inside
`get_enhanced_namaste_mappings` (src/icd11_client.py lines 226-232). -/
def curatedTerms : List (String × String × List String) :=
  [("AAE-16", "Sandhigatvata", ["arthritis", "joint disease", "osteoarthritis"]),
   ("AA", "Vatavyadhi", ["neurological disorder", "vata", "nervous system"]),
   ("EE-3", "Arsha", ["hemorrhoids", "piles", "anorectal"]),
   ("EF-2.4.4", "Madhumeha/Kshaudrameha", ["diabetes", "diabetes mellitus", "metabolic"]),
   ("EA-3", "Kasa", ["cough", "respiratory", "bronchial"])]

/-- The inner collection loop of `get_enhanced_namaste_mappings`
(src/icd11_client.py lines 245-261): for each curated term, take the top
2 search hits, extract code id (last `/` segment) and title, and sort
each usable hit into the TM2 bucket (id contains "x02", case folded) or
the Biomedicine bucket, appending in encounter order. -/
def collectHits (searchFn : String → List SearchHit) (terms : List String) :
    List (String × String) × List (String × String) :=
  terms.foldl
    (fun acc term =>
      ((searchFn term).take 2).foldl
        (fun acc2 hit =>
          let cid := if hit.id = "" then "" else lastSegment hit.id
          if cid ≠ "" ∧ hit.title ≠ "" then
            if strHas (lowerStr hit.id) "x02" then (acc2.1 ++ [(cid, hit.title)], acc2.2)
            else (acc2.1, acc2.2 ++ [(cid, hit.title)])
          else acc2)
        acc)
    ([], [])

/-- Python's `list({r['code']: r for r in results}.values())`: one record
per code, keyed in first-seen order, with the value taken from the last
occurrence of that code. -/
def dedupDict (l : List (String × String)) : List (String × String) :=
  (dedupFirst (l.map Prod.fst)).map fun k =>
    (k, (((l.reverse).find? fun p => p.1 == k).map Prod.snd).getD "")

/-- `get_enhanced_namaste_mappings` (src/icd11_client.py lines 221-270),
parametric in the adapter search function (`search_codes`, which returns
`[]` whenever authentication or the request fails). -/
def getEnhancedNamasteMappings (searchFn : String → List SearchHit) :
    List (String × EnhancedMapping) :=
  curatedTerms.map fun c =>
    let buckets := collectHits searchFn c.2.2
    (c.1, ⟨c.2.1, (dedupDict buckets.1).take 2, (dedupDict buckets.2).take 2⟩)

/-- The static fallback mapping table of `NAMASTETerminologyCLI.__init__`
(src/namaste_cli.py lines 39-45): (code, tm2, biomed, name). -/
def fallbackMappings : List (String × String × String × String) :=
  [("AAE-16", "SP00", "FA01", "Sandhigatvata"),
   ("AA", "SP10", "FA20", "Vatavyadhi"),
   ("EE-3", "SL01", "ME83", "Arsha"),
   ("EF-2.4.4", "SJ00", "5A11", "Madhumeha/Kshaudrameha"),
   ("EA-3", "SB00", "CA22", "Kasa")]

/-- The mapping record returned by `get_icd_mappings_for_code`
(src/namaste_cli.py lines 66-93). -/
structure IcdMapping where
  tm2 : String
  biomed : String
  name : String
  tm2Display : String
  biomedDisplay : String
  source : String
deriving Repr, DecidableEq

/-- The fallback branch of `get_icd_mappings_for_code` (src/namaste_cli.py
lines 83-93): static entry when one exists, else the "UNKNOWN" sentinels;
the provenance string is "FALLBACK" in both cases. -/
def fallbackIcdMapping (code : String) : IcdMapping :=
  match fallbackMappings.find? fun p => p.1 == code with
  | some p =>
    ⟨p.2.1, p.2.2.1, p.2.2.2, "ICD-11 TM2: " ++ p.2.1,
      "ICD-11 Biomedicine: " ++ p.2.2.1, "FALLBACK"⟩
  | none =>
    ⟨"UNKNOWN", "UNKNOWN", "", "ICD-11 TM2: UNKNOWN",
      "ICD-11 Biomedicine: UNKNOWN", "FALLBACK"⟩

/-- `get_icd_mappings_for_code` (src/namaste_cli.py lines 66-93). The
enhanced branch runs only when the API flag is set, the enhanced dict is
non-empty and the code is one of its keys; it reads the first element of
each candidate list, with "UNKNOWN" / "" defaults when a list is empty. -/
def getIcdMappingsForCode (useApi : Bool)
    (enhanced : List (String × EnhancedMapping)) (code : String) : IcdMapping :=
  match (if useApi ∧ enhanced ≠ [] then
          (enhanced.find? fun p => p.1 == code).map fun p => p.2
        else none) with
  | some m =>
    { tm2 := ((m.tm2Codes.head?).map Prod.fst).getD "UNKNOWN"
      biomed := ((m.biomedCodes.head?).map Prod.fst).getD "UNKNOWN"
      name := m.name
      tm2Display := ((m.tm2Codes.head?).map Prod.snd).getD ""
      biomedDisplay := ((m.biomedCodes.head?).map Prod.snd).getD ""
      source := "WHO_ICD11_API" }
  | none => fallbackIcdMapping code

/-- One parsed CSV row after `parse_csv` (src/namaste_cli.py lines
95-123) has attached the five mapping fields. -/
structure CliRow where
  code : String
  disease : String
  shortDefinition : String
  icd11Tm2Code : String
  icd11BiomedCode : String
  icd11Tm2Display : String
  icd11BiomedDisplay : String
  mappingSource : String
deriving Repr, DecidableEq

/-- The `unique_codes` dict built in `generate_fhir_codesystem` and
`generate_fhir_conceptmap` (src/namaste_cli.py lines 131-135, 170-174):
first row per non-empty code, in first-seen order. -/
def uniqueCodesAux (seen : List String) : List CliRow → List (String × CliRow)
  | [] => []
  | r :: rs =>
    if r.code ≠ "" ∧ r.code ∉ seen then
      (r.code, r) :: uniqueCodesAux (r.code :: seen) rs
    else uniqueCodesAux seen rs

/-- `unique_codes` as an association list in insertion order. -/
def uniqueCodes (data : List CliRow) : List (String × CliRow) :=
  uniqueCodesAux [] data

/-- The `concept` list of the CodeSystem generated by
`generate_fhir_codesystem` (src/namaste_cli.py lines 151-158):
(code, display, definition) per unique code. -/
def codeSystemConcepts (data : List CliRow) : List (String × String × String) :=
  (uniqueCodes data).map fun p => (p.1, p.2.disease, p.2.shortDefinition)

/-- One target of a ConceptMap element (src/namaste_cli.py 185-201). -/
structure CMTarget where
  code : String
  display : String
  equivalence : String
  comment : String
deriving Repr, DecidableEq

/-- One element of the ConceptMap group (src/namaste_cli.py 204-208). -/
structure CMElement where
  code : String
  display : String
  targets : List CMTarget
deriving Repr, DecidableEq

/-- The per-row target list of `generate_fhir_conceptmap`
(src/namaste_cli.py lines 179-201): a TM2 target when the TM2 code is
non-empty and not "UNKNOWN", then a Biomedicine target under the same
condition. -/
def elementTargets (r : CliRow) : List CMTarget :=
  (if r.icd11Tm2Code ≠ "" ∧ r.icd11Tm2Code ≠ "UNKNOWN" then
    [⟨r.icd11Tm2Code, r.icd11Tm2Display, "equivalent",
      "Traditional Medicine 2 (TM2) mapping - Source: " ++ r.mappingSource⟩]
  else []) ++
  (if r.icd11BiomedCode ≠ "" ∧ r.icd11BiomedCode ≠ "UNKNOWN" then
    [⟨r.icd11BiomedCode, r.icd11BiomedDisplay, "equivalent",
      "Biomedicine mapping - Source: " ++ r.mappingSource⟩]
  else [])

/-- The `element` list of the ConceptMap generated by
`generate_fhir_conceptmap` (src/namaste_cli.py lines 177-208): one
element per unique code, skipped entirely when its target list is empty
(the `if targets:` guard on line 203). -/
def conceptMapElements (data : List CliRow) : List CMElement :=
  (uniqueCodes data).filterMap fun p =>
    let ts := elementTargets p.2
    if ts = [] then none else some ⟨p.1, p.2.disease, ts⟩

/-- Reference table row for the spec's scenarios: code "AA". -/
def rowAA : Row := ingestRow "AA" "Vatavyadhi" "nervous system disorder"

/-- Reference table row with a second, distinct code. -/
def rowEE : Row := ingestRow "EE-3" "Arsha" "piles"

/-- Two rows whose display names both contain "vata". -/
def rowV1 : Row := ingestRow "AA" "Vata one" "first"

/-- Second row whose display name contains "vata". -/
def rowV2 : Row := ingestRow "EE-3" "Vata two" "second"

/-- A scorer giving 100 to texts containing "vata" and 70 otherwise,
used to exercise the fuzzy phase on concrete inputs. -/
def vataScorer : String → String → Nat :=
  fun _ t => if strHas t "vata" then 100 else 70

/-- A parsed CLI row with both mapping columns resolved. -/
def cliRowAA : CliRow :=
  ⟨"AA", "Vatavyadhi", "nervous system disorder", "SP10", "FA20",
    "ICD-11 TM2: SP10", "ICD-11 Biomedicine: FA20", "FALLBACK"⟩

/-- A parsed CLI row with both mapping columns unresolved. -/
def cliRowXX : CliRow :=
  ⟨"XX", "Mystery", "no mapping", "UNKNOWN", "UNKNOWN",
    "ICD-11 TM2: UNKNOWN", "ICD-11 Biomedicine: UNKNOWN", "FALLBACK"⟩

/-- The empty pattern occurs in every string, as in Python. -/
theorem strHas_empty_pat (s : String) : strHas s "" = true := by
  show strHasAux [] s.data = true
  induction s.data with
  | nil => rfl
  | cons h t ih => simp [strHasAux, strStarts]

/-- With an empty query the exact-match filter keeps every row. -/
theorem exactRows_empty_query (rows : List Row) : exactRows rows "" = rows := by
  unfold exactRows
  apply List.filter_eq_self.mpr
  intro r _
  simp [strHas_empty_pat]

/-- Every exact-phase result is marked "exact" with confidence 100. -/
theorem mem_getExactMatches {rows : List Row} {q : String} {x : SearchResult}
    (hx : x ∈ getExactMatches rows q) :
    x.matchType = "exact" ∧ x.confidenceScore = 100 := by
  unfold getExactMatches at hx
  rcases List.mem_map.mp hx with ⟨r, _, rfl⟩
  exact ⟨rfl, rfl⟩

/-- Every fuzzy-phase result is marked "fuzzy". -/
theorem mem_getFuzzyMatches {scorer : String → String → Nat} {rows : List Row}
    {q : String} {limit threshold : Nat} {x : SearchResult}
    (hx : x ∈ getFuzzyMatches scorer rows q limit threshold) :
    x.matchType = "fuzzy" := by
  simp only [getFuzzyMatches, List.mem_flatMap, List.mem_filter, List.mem_map] at hx
  rcases hx with ⟨p, _, r, _, rfl⟩
  rfl

/-- Deduplication only drops elements, it never invents one. -/
theorem dedupe_sub : ∀ (l : List SearchResult) (seen : List String) (x : SearchResult),
    x ∈ dedupeByCode seen l → x ∈ l := by
  intro l
  induction l with
  | nil => intro seen x hx; simp [dedupeByCode] at hx
  | cons r rs ih =>
    intro seen x hx
    by_cases h : r.namasteCode ∈ seen
    · simp only [dedupeByCode, if_pos h] at hx
      exact List.mem_cons_of_mem _ (ih _ _ hx)
    · simp only [dedupeByCode, if_neg h, List.mem_cons] at hx
      rcases hx with rfl | hx
      · exact List.mem_cons_self _ _
      · exact List.mem_cons_of_mem _ (ih _ _ hx)

/-- Deduplicated results carry pairwise-distinct codes, all unseen. -/
theorem dedupe_spec : ∀ (l : List SearchResult) (seen : List String),
    (∀ c ∈ (dedupeByCode seen l).map SearchResult.namasteCode, c ∉ seen) ∧
      ((dedupeByCode seen l).map SearchResult.namasteCode).Nodup := by
  intro l
  induction l with
  | nil => intro seen; simp [dedupeByCode]
  | cons r rs ih =>
    intro seen
    by_cases h : r.namasteCode ∈ seen
    · simpa only [dedupeByCode, if_pos h] using ih seen
    · simp only [dedupeByCode, if_neg h, List.map_cons, List.nodup_cons]
      refine ⟨?_, ?_, ?_⟩
      · intro c hc
        simp only [List.mem_cons] at hc
        rcases hc with rfl | hc
        · exact h
        · intro hcs
          exact (ih (r.namasteCode :: seen)).1 c hc (List.mem_cons_of_mem _ hcs)
      · intro hmem
        exact (ih (r.namasteCode :: seen)).1 _ hmem (List.mem_cons_self _ _)
      · exact (ih (r.namasteCode :: seen)).2

/-- When a prefix has pairwise-distinct, unseen codes, deduplication
keeps it verbatim and continues on the remainder. -/
theorem dedupe_prefix : ∀ (xs ys : List SearchResult) (seen : List String),
    (xs.map SearchResult.namasteCode).Nodup →
    (∀ x ∈ xs, x.namasteCode ∉ seen) →
    ∃ seen2, dedupeByCode seen (xs ++ ys) = xs ++ dedupeByCode seen2 ys := by
  intro xs
  induction xs with
  | nil => intro ys seen _ _; exact ⟨seen, rfl⟩
  | cons x xs ih =>
    intro ys seen hnd hdisj
    have hx : x.namasteCode ∉ seen := hdisj x (List.mem_cons_self _ _)
    rw [List.map_cons] at hnd
    have hnd2 := List.nodup_cons.mp hnd
    have h2 : ∀ y ∈ xs, y.namasteCode ∉ x.namasteCode :: seen := by
      intro y hy
      simp only [List.mem_cons]
      rintro (heq | hmem)
      · exact hnd2.1 (heq ▸ List.mem_map_of_mem SearchResult.namasteCode hy)
      · exact hdisj y (List.mem_cons_of_mem _ hy) hmem
    rcases ih ys (x.namasteCode :: seen) hnd2.2 h2 with ⟨s2, hs2⟩
    exact ⟨s2, by simp [dedupeByCode, hx, hs2]⟩

/-- Writing the searchable column does not change the code column. -/
theorem codes_map_setSearchable (t : List Row) :
    (t.map setSearchable).map Row.code = t.map Row.code := by
  rw [List.map_map]
  exact List.map_congr_left fun r _ => rfl

/-- The exact-phase result codes form a sublist of the table codes. -/
theorem exact_codes_sublist (rows : List Row) (q : String) :
    ((getExactMatches rows q).map SearchResult.namasteCode).Sublist (rows.map Row.code) := by
  have h : (exactRows rows q).Sublist rows := by
    unfold exactRows; exact List.filter_sublist _
  have h3 : (getExactMatches rows q).map SearchResult.namasteCode =
      (exactRows rows q).map Row.code := by
    unfold getExactMatches
    rw [List.map_map]
    exact List.map_congr_left fun r _ => rfl
  rw [h3]
  exact h.map Row.code

/-- Result-list projection of the search on a non-empty table. -/
theorem fuzzySearchTerms_fst (scorer : String → String → Nat) (t : List Row)
    (q : String) (lim thr : Nat) (ht : t ≠ []) :
    (fuzzySearchTerms scorer t q lim thr).1 =
      (if lim ≤ (getExactMatches (t.map setSearchable) (trimStr (lowerStr q))).length then
        (getExactMatches (t.map setSearchable) (trimStr (lowerStr q))).take lim
      else
        (dedupeByCode []
          ((getExactMatches (t.map setSearchable) (trimStr (lowerStr q))) ++
            getFuzzyMatches scorer (t.map setSearchable) (trimStr (lowerStr q))
              (lim - (getExactMatches (t.map setSearchable) (trimStr (lowerStr q))).length) thr)).take lim) := by
  unfold fuzzySearchTerms
  rw [if_neg ht]
  show (if lim ≤ (getExactMatches (t.map setSearchable) (trimStr (lowerStr q))).length then
      ((getExactMatches (t.map setSearchable) (trimStr (lowerStr q))).take lim, t.map setSearchable)
    else
      ((dedupeByCode []
          ((getExactMatches (t.map setSearchable) (trimStr (lowerStr q))) ++
            getFuzzyMatches scorer (t.map setSearchable) (trimStr (lowerStr q))
              (lim - (getExactMatches (t.map setSearchable) (trimStr (lowerStr q))).length) thr)).take lim,
        t.map setSearchable)).1 = _
  split <;> rfl

/-- Table-state projection of the search. -/
theorem fuzzySearchTerms_snd (scorer : String → String → Nat) (t : List Row)
    (q : String) (lim thr : Nat) :
    (fuzzySearchTerms scorer t q lim thr).2 =
      if t = [] then t else t.map setSearchable := by
  unfold fuzzySearchTerms
  by_cases ht : t = []
  · rw [if_pos ht, if_pos ht]
  · rw [if_neg ht, if_neg ht]
    show (if lim ≤ (getExactMatches (t.map setSearchable) (trimStr (lowerStr q))).length then
        ((getExactMatches (t.map setSearchable) (trimStr (lowerStr q))).take lim, t.map setSearchable)
      else
        ((dedupeByCode []
            ((getExactMatches (t.map setSearchable) (trimStr (lowerStr q))) ++
              getFuzzyMatches scorer (t.map setSearchable) (trimStr (lowerStr q))
                (lim - (getExactMatches (t.map setSearchable) (trimStr (lowerStr q))).length) thr)).take lim,
          t.map setSearchable)).2 = t.map setSearchable
    split <;> rfl

/-- Rewriting the searchable column of a row that already carries its
derived value is the identity. -/
theorem setSearchable_eq_self (r : Row) (h : r.searchableText = some (derivedText r)) :
    setSearchable r = r := by
  cases r
  simp_all [setSearchable, derivedText]

/-- C1 (corrected): on an empty table search returns the empty list, but
on a non-empty table a query that is empty after trimming exact-matches
every record (the empty pattern is a substring of every string), so for
any positive limit the result is non-empty — not empty as claimed. -/
theorem C1_amended_empty_query :
    (∀ (scorer : String → String → Nat) (q : String) (lim thr : Nat),
      (fuzzySearchTerms scorer [] q lim thr).1 = []) ∧
    (∀ (scorer : String → String → Nat) (t : List Row) (q : String) (lim thr : Nat),
      t ≠ [] → (trimStr (lowerStr q)) = "" → 1 ≤ lim →
      (fuzzySearchTerms scorer t q lim thr).1 ≠ []) := by
  constructor
  · intro scorer q lim thr; rfl
  · intro scorer t q lim thr ht hq hlim
    rw [fuzzySearchTerms_fst scorer t q lim thr ht, hq]
    have hex : getExactMatches (t.map setSearchable) "" =
        (t.map setSearchable).map exactResult := by
      unfold getExactMatches
      rw [exactRows_empty_query]
    obtain ⟨r, rs, hrw⟩ : ∃ r rs, t.map setSearchable = r :: rs := by
      cases hmap : t.map setSearchable with
      | nil => exact absurd (List.map_eq_nil_iff.mp hmap) ht
      | cons r rs => exact ⟨r, rs, rfl⟩
    rw [hex, hrw]
    split
    · obtain ⟨k, hk⟩ : ∃ k, lim = k + 1 := ⟨lim - 1, by omega⟩
      rw [hk]
      simp
    · obtain ⟨k, hk⟩ : ∃ k, lim = k + 1 := ⟨lim - 1, by omega⟩
      rw [hk]
      rw [List.map_cons]
      rw [show dedupeByCode [] (exactResult r :: rs.map exactResult ++
          getFuzzyMatches scorer (r :: rs) "" (k + 1 - (exactResult r :: rs.map exactResult).length) thr) =
        exactResult r :: dedupeByCode [(exactResult r).namasteCode]
          (rs.map exactResult ++ getFuzzyMatches scorer (r :: rs) ""
            (k + 1 - (exactResult r :: rs.map exactResult).length) thr) from by
          simp [dedupeByCode]]
      simp

/-- C1 counterexample: on the one-row reference table, a query that is
empty after trimming matches the row exactly, so search returns a
non-empty result — refuting the claim that it returns an empty sequence
on every non-empty table. -/
theorem C1_counterexample :
    (trimStr (lowerStr "") = "") ∧ ([rowAA] : List Row) ≠ [] ∧
      (fuzzySearchTerms zeroScorer [rowAA] "" 1 60).1 ≠ [] := by
  refine ⟨rfl, by decide, by decide⟩

/-- C1 witness: the amended theorem applied on an empty table and on a
concrete one-row table with a whitespace-only query. -/
theorem C1_witness :
    (fuzzySearchTerms zeroScorer ([] : List Row) "q" 3 60).1 = [] ∧
      (fuzzySearchTerms zeroScorer [rowAA] " " 2 60).1 ≠ [] :=
  ⟨C1_amended_empty_query.1 zeroScorer "q" 3 60,
   C1_amended_empty_query.2 zeroScorer [rowAA] " " 2 60 (by decide) (by decide)
     (by decide)⟩

/-- C2 (corrected): the resolver performs a lookup exactly for the
NAMASTE→TM2 and TM2→NAMASTE directions; every other system pair on a
non-empty table — including both NAMASTE↔BIOMEDICINE directions the
claim calls supported — yields the explicit unsupported-direction
response (result false with the unsupported message, never a silent
empty success). -/
theorem C2_amended_supported_directions :
    (∀ (t : List Row) (c : String), t ≠ [] →
      translateCode t c "NAMASTE" "TM2" =
        .ok (translationResponseFor c "NAMASTE" "TM2"
          (getTranslationMatches t c (fun r => r.code)
            (fun r => r.icd11Tm2Code) (fun r => r.disease)))) ∧
    (∀ (t : List Row) (c : String), t ≠ [] →
      translateCode t c "TM2" "NAMASTE" =
        .ok (translationResponseFor c "TM2" "NAMASTE"
          (getTranslationMatches t c (fun r => r.icd11Tm2Code)
            (fun r => r.code) (fun r => r.disease)))) ∧
    (∀ (t : List Row) (c s g : String), t ≠ [] →
      ¬((s = "NAMASTE" ∧ g = "TM2") ∨ (s = "TM2" ∧ g = "NAMASTE")) →
      translateCode t c s g = .ok ⟨false, unsupportedMsg, []⟩) := by
  refine ⟨?_, ?_, ?_⟩
  · intro t c ht
    unfold translateCode
    rw [if_neg ht, if_pos ⟨rfl, rfl⟩]
  · intro t c ht
    unfold translateCode
    rw [if_neg ht, if_neg (by simp), if_pos ⟨rfl, rfl⟩]
  · intro t c s g ht h
    unfold translateCode
    rw [if_neg ht, if_neg (fun hc => h (Or.inl hc)), if_neg (fun hc => h (Or.inr hc))]

/-- C2 counterexample: on the reference table, NAMASTE→BIOMEDICINE — a
direction the claim says resolve supports — returns the
unsupported-direction failure without looking at the table, although the
row carries a resolved Biomedicine code; conversely TM2→NAMASTE, absent
from the claim's supported set, does perform a lookup and succeeds. -/
theorem C2_counterexample :
    translateCode [rowAA] "AA" "NAMASTE" "BIOMEDICINE" =
        .ok ⟨false, unsupportedMsg, []⟩ ∧
      rowAA.icd11BiomedCode = "FA20" ∧
      translateCode [rowAA] "SP10" "TM2" "NAMASTE" =
        .ok ⟨true, "Translation successful",
          [⟨"equivalent", "AA", "Vatavyadhi"⟩]⟩ := by
  refine ⟨rfl, rfl, rfl⟩

/-- C2 witness: the amended theorem applied to the reference table for a
supported direction and for an unsupported pair. -/
theorem C2_witness :
    translateCode [rowAA] "AA" "NAMASTE" "TM2" =
        .ok (translationResponseFor "AA" "NAMASTE" "TM2"
          (getTranslationMatches [rowAA] "AA" (fun r => r.code)
            (fun r => r.icd11Tm2Code) (fun r => r.disease))) ∧
      translateCode [rowAA] "AA" "BIOMEDICINE" "NAMASTE" =
        .ok ⟨false, unsupportedMsg, []⟩ :=
  ⟨C2_amended_supported_directions.1 [rowAA] "AA" (by decide),
   C2_amended_supported_directions.2.2 [rowAA] "AA" "BIOMEDICINE" "NAMASTE"
     (by decide) (by decide)⟩

/-- C3 (corrected): with the API flag off (client failed to initialize)
every code resolves through the static fallback table with provenance
"FALLBACK" — including codes without a static entry, which get the
"UNKNOWN" sentinels but still provenance "FALLBACK", not an UNRESOLVED
marking.  When the client initialized but every curated search returned
no usable candidate (the authentication-failure run), each curated code
keeps the "UNKNOWN" sentinels with provenance "WHO_ICD11_API": the
static fallback is not applied. -/
theorem C3_amended_fallback_behaviour :
    (∀ (enh : List (String × EnhancedMapping)) (c : String),
        getIcdMappingsForCode false enh c = fallbackIcdMapping c) ∧
    (∀ c : String, (fallbackIcdMapping c).source = "FALLBACK") ∧
    (∀ (c : String) (m : EnhancedMapping),
        (c, m) ∈ getEnhancedNamasteMappings (fun _ => []) →
        getIcdMappingsForCode true (getEnhancedNamasteMappings (fun _ => [])) c =
          ⟨"UNKNOWN", "UNKNOWN", m.name, "", "", "WHO_ICD11_API"⟩) := by
  refine ⟨?_, ?_, ?_⟩
  · intro enh c
    rfl
  · intro c
    unfold fallbackIcdMapping
    split <;> rfl
  · intro c m hm
    have hL : getEnhancedNamasteMappings (fun _ => []) =
        [("AAE-16", ⟨"Sandhigatvata", [], []⟩),
         ("AA", ⟨"Vatavyadhi", [], []⟩),
         ("EE-3", ⟨"Arsha", [], []⟩),
         ("EF-2.4.4", ⟨"Madhumeha/Kshaudrameha", [], []⟩),
         ("EA-3", ⟨"Kasa", [], []⟩)] := by rfl
    rw [hL] at hm
    simp only [List.mem_cons, List.not_mem_nil, or_false, Prod.mk.injEq] at hm
    rcases hm with ⟨rfl, rfl⟩ | ⟨rfl, rfl⟩ | ⟨rfl, rfl⟩ | ⟨rfl, rfl⟩ | ⟨rfl, rfl⟩ <;> rfl

/-- C3 counterexample: in the all-searches-fail run, code "AAE-16" has a
static fallback entry (TM2 "SP00"), yet enrichment leaves its codes at
the "UNKNOWN" sentinels with provenance "WHO_ICD11_API" — the static
fallback is not applied and no STATIC_FALLBACK provenance appears; and a
code with no fallback entry is marked "FALLBACK", not UNRESOLVED. -/
theorem C3_counterexample :
    (getIcdMappingsForCode true (getEnhancedNamasteMappings (fun _ => []))
        "AAE-16").source = "WHO_ICD11_API" ∧
      (getIcdMappingsForCode true (getEnhancedNamasteMappings (fun _ => []))
        "AAE-16").tm2 = "UNKNOWN" ∧
      (fallbackMappings.find? fun p => p.1 == "AAE-16") =
        some ("AAE-16", "SP00", "FA01", "Sandhigatvata") ∧
      (getIcdMappingsForCode false [] "ZZZ").source = "FALLBACK" ∧
      (getIcdMappingsForCode false [] "ZZZ").tm2 = "UNKNOWN" ∧
      (getIcdMappingsForCode false [] "ZZZ").biomed = "UNKNOWN" := by
  refine ⟨rfl, rfl, rfl, rfl, rfl, rfl⟩

/-- C3 witness: the amended theorem applied to the curated code "AAE-16"
in the run where every external search yields no candidates. -/
theorem C3_witness :
    getIcdMappingsForCode true (getEnhancedNamasteMappings (fun _ => [])) "AAE-16" =
      ⟨"UNKNOWN", "UNKNOWN", "Sandhigatvata", "", "", "WHO_ICD11_API"⟩ :=
  C3_amended_fallback_behaviour.2.2 "AAE-16" ⟨"Sandhigatvata", [], []⟩ (by decide)

/-- C4 (corrected): the fuzzy phase of the search coincides with the
spec's algorithm when the candidate width is the remaining limit itself
(`process.extract` is called with `limit=remaining_limit`), not twice
the remaining limit as the claim states. -/
theorem C4_amended_fuzzy_width :
    ∀ (scorer : String → String → Nat) (t : List Row) (q : String) (lim thr : Nat),
      searchSpecW scorer (fun k => k) t q lim thr =
        (fuzzySearchTerms scorer t q lim thr).1 := by
  intro scorer t q lim thr
  by_cases ht : t = []
  · subst ht; rfl
  · rw [fuzzySearchTerms_fst scorer t q lim thr ht]
    unfold searchSpecW
    rw [if_neg ht]
    show (if lim ≤ (getExactMatches (t.map setSearchable) (trimStr (lowerStr q))).length then
        (getExactMatches (t.map setSearchable) (trimStr (lowerStr q))).take lim
      else
        (dedupeByCode []
            ((getExactMatches (t.map setSearchable) (trimStr (lowerStr q))) ++
              specFuzzyPhase scorer (t.map setSearchable) (trimStr (lowerStr q))
                (lim - (getExactMatches (t.map setSearchable) (trimStr (lowerStr q))).length) thr)).take lim) = _
    split <;> rfl

/-- C4 counterexample: on a two-row table with one exact match, limit 2
and threshold 60, running the spec's fuzzy phase with width
`2 × remaining_limit` returns two entries while the code returns one —
the code extracts only `remaining_limit` candidates, so the second-best
text never reaches the threshold filter. -/
theorem C4_counterexample :
    searchSpecW vataScorer (fun k => 2 * k) [rowAA, rowEE] "vata" 2 60 ≠
      (fuzzySearchTerms vataScorer [rowAA, rowEE] "vata" 2 60).1 := by
  decide

/-- C5 (corrected): search does mutate the published table — it writes
the derived `searchable_text` column — but it leaves every ingested
column unchanged, and on a table whose searchable column already holds
the derived values a further search leaves the table identical (the
mutation is idempotent within one generation).  The resolver takes no
table state out at all in this embedding, mirroring that
`translate_code` only reads the DataFrame. -/
theorem C5_amended_search_writes_derived_column :
    (∀ (scorer : String → String → Nat) (t : List Row) (q : String) (lim thr : Nat),
        ((fuzzySearchTerms scorer t q lim thr).2).map stripDerived = t.map stripDerived) ∧
    (∀ (scorer : String → String → Nat) (t : List Row) (q : String) (lim thr : Nat),
        (∀ r ∈ t, r.searchableText = some (derivedText r)) →
        (fuzzySearchTerms scorer t q lim thr).2 = t) := by
  constructor
  · intro scorer t q lim thr
    rw [fuzzySearchTerms_snd]
    by_cases ht : t = []
    · rw [if_pos ht]
    · rw [if_neg ht, List.map_map]
      exact List.map_congr_left fun r _ => rfl
  · intro scorer t q lim thr h
    rw [fuzzySearchTerms_snd]
    by_cases ht : t = []
    · rw [if_pos ht]
    · rw [if_neg ht]
      calc t.map setSearchable = t.map id := List.map_congr_left fun r hr =>
            setSearchable_eq_self r (h r hr)
        _ = t := List.map_id t

/-- C5 counterexample: searching the freshly ingested one-row table
changes it — the `searchable_text` column appears — so the table is not
identical before and after a search call, refuting the claim. -/
theorem C5_counterexample :
    (fuzzySearchTerms zeroScorer [rowAA] "vata" 5 60).2 ≠ [rowAA] := by
  decide

/-- C5 witness: the amended theorem's idempotence part applied to the
one-row table whose searchable column is already populated. -/
theorem C5_witness :
    (fuzzySearchTerms zeroScorer [setSearchable rowAA] "vata" 5 60).2 =
      [setSearchable rowAA] :=
  C5_amended_search_writes_derived_column.2 zeroScorer [setSearchable rowAA]
    "vata" 5 60 (by decide)

/-- C6 (corrected): when the normalized query occurs in a record's
lowercased display name AND the table's exact matches fit within the
limit AND table codes are distinct, that record's result appears with
confidence 100 and match type "exact", and the result list splits into
an exact segment (containing it) followed by a purely fuzzy segment.
Without the limit-fit hypothesis the claim fails: the truncation
`exact_results[:limit]` can drop the record. -/
theorem C6_amended_exact_substring_first :
    ∀ (scorer : String → String → Nat) (t : List Row) (query : String)
      (lim thr : Nat) (r : Row),
      ((t.map Row.code).Nodup) →
      r ∈ t →
      strHas (lowerStr r.disease) (trimStr (lowerStr query)) = true →
      (exactRows (t.map setSearchable) (trimStr (lowerStr query))).length ≤ lim →
      ∃ pre post,
        (fuzzySearchTerms scorer t query lim thr).1 = pre ++ post ∧
        exactResult r ∈ pre ∧
        (∀ x ∈ pre, x.matchType = "exact" ∧ x.confidenceScore = 100) ∧
        (∀ x ∈ post, x.matchType = "fuzzy") := by
  intro scorer t query lim thr r hnd hr hq hcnt
  have ht : t ≠ [] := by
    intro h; subst h; simp at hr
  have hmem : setSearchable r ∈
      exactRows (t.map setSearchable) (trimStr (lowerStr query)) := by
    apply List.mem_filter.mpr
    refine ⟨List.mem_map_of_mem _ hr, ?_⟩
    show (strHas (lowerStr r.disease) (trimStr (lowerStr query)) ||
      strHas (lowerStr r.shortDefinition) (trimStr (lowerStr query)) ||
      strHas (lowerStr r.code) (trimStr (lowerStr query))) = true
    rw [hq]
    simp
  have hres : exactResult r ∈
      getExactMatches (t.map setSearchable) (trimStr (lowerStr query)) := by
    have h0 := List.mem_map_of_mem exactResult hmem
    exact h0
  have hlen : (getExactMatches (t.map setSearchable) (trimStr (lowerStr query))).length ≤ lim := by
    unfold getExactMatches
    rw [List.length_map]
    exact hcnt
  rw [fuzzySearchTerms_fst scorer t query lim thr ht]
  by_cases hcase :
      lim ≤ (getExactMatches (t.map setSearchable) (trimStr (lowerStr query))).length
  · rw [if_pos hcase, List.take_of_length_le hlen]
    refine ⟨getExactMatches (t.map setSearchable) (trimStr (lowerStr query)), [],
      by simp, hres, ?_, by simp⟩
    intro x hx
    exact mem_getExactMatches hx
  · rw [if_neg hcase]
    have hndexact :
        ((getExactMatches (t.map setSearchable) (trimStr (lowerStr query))).map
          SearchResult.namasteCode).Nodup := by
      have hsub := exact_codes_sublist (t.map setSearchable) (trimStr (lowerStr query))
      rw [codes_map_setSearchable] at hsub
      exact hnd.sublist hsub
    have hdisj : ∀ x ∈ getExactMatches (t.map setSearchable) (trimStr (lowerStr query)),
        x.namasteCode ∉ ([] : List String) := by
      intro x _
      simp
    rcases dedupe_prefix
        (getExactMatches (t.map setSearchable) (trimStr (lowerStr query)))
        (getFuzzyMatches scorer (t.map setSearchable) (trimStr (lowerStr query))
          (lim - (getExactMatches (t.map setSearchable) (trimStr (lowerStr query))).length) thr)
        [] hndexact hdisj with ⟨s2, hs2⟩
    rw [hs2, List.take_append_eq_append_take, List.take_of_length_le hlen]
    refine ⟨getExactMatches (t.map setSearchable) (trimStr (lowerStr query)),
      (dedupeByCode s2
        (getFuzzyMatches scorer (t.map setSearchable) (trimStr (lowerStr query))
          (lim - (getExactMatches (t.map setSearchable) (trimStr (lowerStr query))).length) thr)).take
        (lim - (getExactMatches (t.map setSearchable) (trimStr (lowerStr query))).length),
      rfl, hres, ?_, ?_⟩
    · intro x hx
      exact mem_getExactMatches hx
    · intro x hx
      have hx2 := (List.take_sublist _ _).subset hx
      exact mem_getFuzzyMatches (dedupe_sub _ _ _ hx2)

/-- C6 counterexample: both rows' display names contain the query
"vata", but with limit 1 the early return truncates the exact matches,
so the second record never appears in the result — refuting the claim
for every query that is a substring of some display name. -/
theorem C6_counterexample :
    strHas (lowerStr "Vata two") (trimStr (lowerStr "vata")) = true ∧
      rowV2.disease = "Vata two" ∧
      ∀ x ∈ (fuzzySearchTerms zeroScorer [rowV1, rowV2] "vata" 1 60).1,
        x.namasteCode ≠ "EE-3" := by
  refine ⟨by decide, rfl, by decide⟩

/-- C6 witness: the amended theorem applied to the one-row reference
table with query "vata", limit 5 and threshold 60. -/
theorem C6_witness :
    ∃ pre post,
      (fuzzySearchTerms zeroScorer [rowAA] "vata" 5 60).1 = pre ++ post ∧
      exactResult rowAA ∈ pre ∧
      (∀ x ∈ pre, x.matchType = "exact" ∧ x.confidenceScore = 100) ∧
      (∀ x ∈ post, x.matchType = "fuzzy") :=
  C6_amended_exact_substring_first zeroScorer [rowAA] "vata" 5 60 rowAA
    (by decide) (by decide) (by decide) (by decide)

/-- C7 (confirmed): on a table with pairwise-distinct codes, search
returns at most `limit` entries and never repeats a `record_code`: the
early-return path truncates a duplicate-free exact list, and the merged
path deduplicates by code before truncating. -/
theorem C7_limit_and_distinct_codes :
    ∀ (scorer : String → String → Nat) (t : List Row) (query : String) (lim thr : Nat),
      ((t.map Row.code).Nodup) →
      (fuzzySearchTerms scorer t query lim thr).1.length ≤ lim ∧
        ((fuzzySearchTerms scorer t query lim thr).1.map SearchResult.namasteCode).Nodup := by
  intro scorer t query lim thr hnd
  by_cases ht : t = []
  · subst ht
    constructor
    · simp [fuzzySearchTerms]
    · simp [fuzzySearchTerms]
  · rw [fuzzySearchTerms_fst scorer t query lim thr ht]
    have hndexact :
        ((getExactMatches (t.map setSearchable) (trimStr (lowerStr query))).map
          SearchResult.namasteCode).Nodup := by
      have hsub := exact_codes_sublist (t.map setSearchable) (trimStr (lowerStr query))
      rw [codes_map_setSearchable] at hsub
      exact hnd.sublist hsub
    by_cases hcase :
        lim ≤ (getExactMatches (t.map setSearchable) (trimStr (lowerStr query))).length
    · rw [if_pos hcase]
      constructor
      · rw [List.length_take]
        exact Nat.min_le_left _ _
      · exact hndexact.sublist ((List.take_sublist _ _).map _)
    · rw [if_neg hcase]
      constructor
      · rw [List.length_take]
        exact Nat.min_le_left _ _
      · have h1 := (dedupe_spec
          ((getExactMatches (t.map setSearchable) (trimStr (lowerStr query))) ++
            getFuzzyMatches scorer (t.map setSearchable) (trimStr (lowerStr query))
              (lim - (getExactMatches (t.map setSearchable) (trimStr (lowerStr query))).length) thr)
          []).2
        exact h1.sublist ((List.take_sublist _ _).map _)

/-- C7 witness: the theorem applied to the two-row reference table with
a query, limit 1 and threshold 60. -/
theorem C7_witness :
    (fuzzySearchTerms vataScorer [rowAA, rowEE] "a" 1 60).1.length ≤ 1 ∧
      ((fuzzySearchTerms vataScorer [rowAA, rowEE] "a" 1 60).1.map
        SearchResult.namasteCode).Nodup :=
  C7_limit_and_distinct_codes vataScorer [rowAA, rowEE] "a" 1 60 (by decide)

/-- Soundness of the translation-match scan: every emitted match comes
from a row whose source column equals the code, carries that row's
target value, is not the "UNKNOWN" sentinel, and is marked equivalent. -/
theorem getTranslationMatches_sound (t : List Row) (c : String)
    (f g h : Row → String) (m : TransMatch)
    (hm : m ∈ getTranslationMatches t c f g h) :
    ∃ r, r ∈ t ∧ f r = c ∧ g r = m.conceptCode ∧ m.conceptCode ≠ "UNKNOWN" ∧
      m.equivalence = "equivalent" := by
  unfold getTranslationMatches at hm
  rcases List.mem_map.mp hm with ⟨r, hr, rfl⟩
  rcases List.mem_filter.mp hr with ⟨hr1, hr2⟩
  rcases List.mem_filter.mp hr1 with ⟨hrt, hrc⟩
  refine ⟨r, hrt, ?_, rfl, ?_, rfl⟩
  · exact eq_of_beq hrc
  · simpa using hr2

/-- C8 (confirmed): for both supported directions every emitted entry
comes from a row whose source column equals the looked-up code, with a
target that is present and not the "UNKNOWN" sentinel and equivalence
"equivalent"; and on the reference table (where the ingest mapping sends
"AA" to TM2 "SP10") the scenario resolve("AA", NAMASTE, TM2) yields
exactly one entry with target "SP10" and equivalence "equivalent". -/
theorem C8_translation_scan :
    (∀ (t : List Row) (c : String) (m : TransMatch),
        m ∈ getTranslationMatches t c (fun r => r.code)
          (fun r => r.icd11Tm2Code) (fun r => r.disease) →
        ∃ r, r ∈ t ∧ r.code = c ∧ r.icd11Tm2Code = m.conceptCode ∧
          m.conceptCode ≠ "UNKNOWN" ∧ m.equivalence = "equivalent") ∧
    (∀ (t : List Row) (c : String) (m : TransMatch),
        m ∈ getTranslationMatches t c (fun r => r.icd11Tm2Code)
          (fun r => r.code) (fun r => r.disease) →
        ∃ r, r ∈ t ∧ r.icd11Tm2Code = c ∧ r.code = m.conceptCode ∧
          m.conceptCode ≠ "UNKNOWN" ∧ m.equivalence = "equivalent") ∧
    translateCode [rowAA, rowEE] "AA" "NAMASTE" "TM2" =
      .ok ⟨true, "Translation successful", [⟨"equivalent", "SP10", "Vatavyadhi"⟩]⟩ := by
  refine ⟨?_, ?_, rfl⟩
  · intro t c m hm
    exact getTranslationMatches_sound t c _ _ _ m hm
  · intro t c m hm
    exact getTranslationMatches_sound t c _ _ _ m hm

/-- C8 witness: the soundness half applied to the concrete match that
the reference-table scenario emits. -/
theorem C8_witness :
    ∃ r, r ∈ [rowAA, rowEE] ∧ r.code = "AA" ∧ r.icd11Tm2Code = "SP10" ∧
      ("SP10" : String) ≠ "UNKNOWN" ∧ ("equivalent" : String) = "equivalent" :=
  C8_translation_scan.1 [rowAA, rowEE] "AA" ⟨"equivalent", "SP10", "Vatavyadhi"⟩
    (by decide)

/-- C9 (corrected): a stored cache entry is loaded exactly while
`now < cached_at + cache_duration`, and a missing file, non-JSON
content or an unparsable timestamp string load as a miss; but the
claim's "never surfaced as an error" fails — the `except` clause
catches only `(json.JSONDecodeError, ValueError, KeyError)`, so a
valid-JSON non-dict cache file raises `AttributeError` and a dict with
a non-string `cached_at` raises `TypeError`, both propagating to the
caller. -/
theorem C9_amended_cache_validity :
    (∀ (now dur cachedAt : Int) (d : Nat),
        loadFromCache now dur (CacheEntry.stored cachedAt d) = .ok (some d) ↔
          now < cachedAt + dur) ∧
    (∀ (now dur : Int),
        loadFromCache now dur (CacheEntry.absent : CacheEntry Nat) = .ok none ∧
        loadFromCache now dur (CacheEntry.notJson : CacheEntry Nat) = .ok none ∧
        loadFromCache now dur (CacheEntry.unparsableTimestamp : CacheEntry Nat) =
          .ok none) ∧
    (∀ (now dur : Int),
        loadFromCache now dur (CacheEntry.nonDictJson : CacheEntry Nat) =
          .error "AttributeError" ∧
        loadFromCache now dur (CacheEntry.nonStringTimestamp : CacheEntry Nat) =
          .error "TypeError") ∧
    (∀ (now dur : Int) (e : CacheEntry Nat),
        isCacheValid now dur e = .ok true ↔
          ∃ c d, e = CacheEntry.stored c d ∧ now < c + dur) := by
  refine ⟨?_, ?_, ?_, ?_⟩
  · intro now dur c d
    unfold loadFromCache isCacheValid
    by_cases h : now < c + dur
    · simp [h]
    · simp [h]
  · intro now dur
    exact ⟨rfl, rfl, rfl⟩
  · intro now dur
    exact ⟨rfl, rfl⟩
  · intro now dur e
    cases e with
    | absent => simp [isCacheValid]
    | notJson => simp [isCacheValid]
    | nonDictJson => simp [isCacheValid]
    | nonStringTimestamp => simp [isCacheValid]
    | unparsableTimestamp => simp [isCacheValid]
    | stored c d =>
      simp only [isCacheValid, Except.ok.injEq, decide_eq_true_eq,
        CacheEntry.stored.injEq]
      constructor
      · intro h
        exact ⟨c, d, ⟨rfl, rfl⟩, h⟩
      · rintro ⟨c2, d2, ⟨rfl, rfl⟩, h⟩
        exact h

/-- C9 counterexample: a cache file whose JSON is a list (so it lacks a
valid timestamp) is surfaced as an uncaught `AttributeError`, and a
dict with a numeric `cached_at` as an uncaught `TypeError` — neither is
treated as a cache miss, refuting "never surfaced as an error". -/
theorem C9_counterexample :
    loadFromCache 0 24 (CacheEntry.nonDictJson : CacheEntry Nat) =
        .error "AttributeError" ∧
      loadFromCache 0 24 (CacheEntry.nonStringTimestamp : CacheEntry Nat) =
        .error "TypeError" ∧
      isCacheValid 0 24 (CacheEntry.nonDictJson : CacheEntry Nat) ≠ .ok false :=
  ⟨rfl, rfl, by simp [isCacheValid]⟩

/-- C9 witness: the validity window applied at a concrete in-date entry. -/
theorem C9_witness :
    (0 : Int) < 0 + 5 ∧
      loadFromCache 0 5 (CacheEntry.stored 0 (3 : Nat)) = .ok (some 3) :=
  ⟨by decide, (C9_amended_cache_validity.1 0 5 0 3).mpr (by decide)⟩

/-- Keys collected by the unique-codes dict are pairwise distinct and
outside the seen accumulator. -/
theorem uniqueCodesAux_spec : ∀ (d : List CliRow) (seen : List String),
    (∀ p ∈ uniqueCodesAux seen d, p.1 ∉ seen) ∧
      ((uniqueCodesAux seen d).map Prod.fst).Nodup := by
  intro d
  induction d with
  | nil => intro seen; simp [uniqueCodesAux]
  | cons r rs ih =>
    intro seen
    by_cases h : r.code ≠ "" ∧ r.code ∉ seen
    · simp only [uniqueCodesAux, if_pos h, List.map_cons, List.nodup_cons]
      refine ⟨?_, ?_, ?_⟩
      · intro p hp
        simp only [List.mem_cons] at hp
        rcases hp with rfl | hp
        · exact h.2
        · intro hps
          exact (ih (r.code :: seen)).1 p hp (List.mem_cons_of_mem _ hps)
      · intro hmem
        rcases List.mem_map.mp hmem with ⟨p, hp, hpe⟩
        exact (ih (r.code :: seen)).1 p hp (hpe ▸ List.mem_cons_self _ _)
      · exact (ih (r.code :: seen)).2
    · simpa only [uniqueCodesAux, if_neg h] using ih seen

/-- An association list with pairwise-distinct keys associates each key
with a single value. -/
theorem assoc_nodup_unique : ∀ (l : List (String × CliRow)),
    (l.map Prod.fst).Nodup →
    ∀ (c : String) (r r2 : CliRow), (c, r) ∈ l → (c, r2) ∈ l → r = r2 := by
  intro l
  induction l with
  | nil => intro _ c r r2 h1; simp at h1
  | cons p ps ih =>
    intro hnd c r r2 h1 h2
    rw [List.map_cons, List.nodup_cons] at hnd
    simp only [List.mem_cons] at h1 h2
    rcases h1 with rfl | h1
    · rcases h2 with heq | h2
      · exact (Prod.mk.injEq .. ▸ heq.symm).2.symm ▸ rfl
      · exact absurd (List.mem_map_of_mem Prod.fst h2) hnd.1
    · rcases h2 with rfl | h2
      · exact absurd (List.mem_map_of_mem Prod.fst h1) hnd.1
      · exact ih hnd.2 c r r2 h1 h2

/-- A row whose two mapping columns are both the "UNKNOWN" sentinel gets
no ConceptMap targets. -/
theorem elementTargets_unknown (r : CliRow)
    (h1 : r.icd11Tm2Code = "UNKNOWN") (h2 : r.icd11BiomedCode = "UNKNOWN") :
    elementTargets r = [] := by
  unfold elementTargets
  rw [if_neg (fun hc => hc.2 h1), if_neg (fun hc => hc.2 h2)]
  rfl

/-- C10 (confirmed): every element of the generated ConceptMap carries
at least one target (the `if targets:` guard), and a code whose TM2 and
Biomedicine mappings are both the "UNKNOWN" sentinel is omitted from the
ConceptMap element list while still appearing in the CodeSystem concept
list. -/
theorem C10_conceptmap_omits_unmapped :
    (∀ (d : List CliRow) (e : CMElement), e ∈ conceptMapElements d → e.targets ≠ []) ∧
    (∀ (d : List CliRow) (c : String) (r : CliRow),
        (c, r) ∈ uniqueCodes d →
        r.icd11Tm2Code = "UNKNOWN" → r.icd11BiomedCode = "UNKNOWN" →
        c ∉ (conceptMapElements d).map CMElement.code ∧
          c ∈ (codeSystemConcepts d).map Prod.fst) := by
  constructor
  · intro d e he
    unfold conceptMapElements at he
    rcases List.mem_filterMap.mp he with ⟨p, _, hpe⟩
    by_cases hts : elementTargets p.2 = []
    · rw [if_pos hts] at hpe
      exact absurd hpe (by simp)
    · rw [if_neg hts] at hpe
      have : e = ⟨p.1, p.2.disease, elementTargets p.2⟩ := (Option.some.injEq .. ▸ hpe).symm
      rw [this]
      exact hts
  · intro d c r hin h1 h2
    constructor
    · intro hc
      rcases List.mem_map.mp hc with ⟨e, he, hec⟩
      unfold conceptMapElements at he
      rcases List.mem_filterMap.mp he with ⟨p, hp, hpe⟩
      by_cases hts : elementTargets p.2 = []
      · rw [if_pos hts] at hpe
        exact absurd hpe (by simp)
      · rw [if_neg hts] at hpe
        have hec2 : p.1 = c := by
          have : e = ⟨p.1, p.2.disease, elementTargets p.2⟩ :=
            (Option.some.injEq .. ▸ hpe).symm
          rw [this] at hec
          exact hec
        have hp2 : (c, p.2) ∈ uniqueCodes d := by
          have : p = (c, p.2) := by
            rw [← hec2]
          rw [← this]
          exact hp
        have hr : p.2 = r :=
          assoc_nodup_unique (uniqueCodes d) (uniqueCodesAux_spec d []).2 c p.2 r hp2 hin
        rw [hr] at hts
        exact hts (elementTargets_unknown r h1 h2)
    · unfold codeSystemConcepts
      rw [List.map_map]
      have : c = (Prod.fst ∘ fun p => (p.1, p.2.disease, p.2.shortDefinition)) (c, r) := rfl
      rw [this]
      exact List.mem_map_of_mem _ hin

/-- C10 witness: the theorem applied to a two-row dataset where "AA" is
fully mapped and "XX" is unmapped on both columns. -/
theorem C10_witness :
    (⟨"AA", "Vatavyadhi", elementTargets cliRowAA⟩ : CMElement).targets ≠ [] ∧
      ("XX" ∉ (conceptMapElements [cliRowAA, cliRowXX]).map CMElement.code ∧
        "XX" ∈ (codeSystemConcepts [cliRowAA, cliRowXX]).map Prod.fst) :=
  ⟨C10_conceptmap_omits_unmapped.1 [cliRowAA, cliRowXX]
      ⟨"AA", "Vatavyadhi", elementTargets cliRowAA⟩ (by decide),
   C10_conceptmap_omits_unmapped.2 [cliRowAA, cliRowXX] "XX" cliRowXX
      (by decide) (by decide) (by decide)⟩
